import Mathlib

/-!
Shallow embedding of the core logic of the two Rust programs in this
repository: `rust-object-stress-test/src/main.rs` (object generation,
parameter adjustment, animation update) and
`rust-memory-stress-test/src/main.rs` (stress buffer, circle update).

Rust `f32` values are modelled as exact rationals (`ℚ`); `i32` arithmetic is
modelled on `ℤ` with explicit wrapping (`wrap32`) where overflow could occur.
The random source `rand::thread_rng` with `gen_range(lo..hi)` is modelled as a
stream of unit samples `u ∈ [0,1)` mapped affinely onto the half-open request
range (floats), resp. `lo + ⌊u·(hi-lo)⌋` (integers).
-/

set_option maxRecDepth 8000

namespace Demo

/-- A random source: a stream of unit samples in `[0,1)` and a cursor.
Models `rand::rngs::ThreadRng`. -/
structure Rng where
  stream : ℕ → ℚ
  idx : ℕ
  lb : ∀ n, 0 ≤ stream n
  ub : ∀ n, stream n < 1

/-- Advance the random source by one sample. -/
def Rng.bump (r : Rng) : Rng :=
  { r with idx := r.idx + 1 }

/-- Models `rng.gen_range(lo..hi)` on floats: a sample in `[lo, hi)`. -/
def genF (lo hi : ℚ) (r : Rng) : ℚ × Rng :=
  (lo + r.stream r.idx * (hi - lo), r.bump)

/-- Models `rng.gen_range(lo..hi)` on unsigned integers: a sample in `[lo, hi)`. -/
def genI (lo hi : ℕ) (r : Rng) : ℕ × Rng :=
  (lo + ⌊(hi - lo : ℚ) * r.stream r.idx⌋.toNat, r.bump)

/-- Raylib `Color`: four channels, 8 bits each. -/
structure Color where
  r : ℕ
  g : ℕ
  b : ℕ
  a : ℕ
  deriving DecidableEq, Repr

/-- 2D circle record (`struct Circle` in both programs). -/
structure Circle where
  x : ℚ
  y : ℚ
  radius : ℚ
  speed : ℚ
  color : Color
  deriving DecidableEq, Repr

/-- 2D rectangle record (`struct Rectangle2D`). -/
structure Rectangle2D where
  x : ℚ
  y : ℚ
  width : ℚ
  height : ℚ
  speed : ℚ
  color : Color
  deriving DecidableEq, Repr

/-- Raylib `Vector3`. -/
structure Vector3 where
  x : ℚ
  y : ℚ
  z : ℚ
  deriving DecidableEq, Repr

/-- 3D cube record (`struct Cube`). -/
structure Cube where
  position : Vector3
  size : Vector3
  rotation : ℚ
  color : Color
  deriving DecidableEq, Repr

/-- Source `enum ShapeType`. -/
inductive ShapeType where
  | Circle
  | Rectangle
  | Mixed
  deriving DecidableEq, Repr

/-- Source `enum RenderMode`. -/
inductive RenderMode where
  | Mode2D
  | Mode3D
  deriving DecidableEq, Repr

/-- The three object sequences owned by the main loop of
`rust-object-stress-test`. -/
structure ObjectPool where
  circles : List Circle
  rectangles : List Rectangle2D
  cubes : List Cube
  deriving DecidableEq, Repr

/-- Wrap an integer into the `i32` range, as Rust release-mode arithmetic
does. -/
def wrap32 (z : ℤ) : ℤ :=
  (z + 2 ^ 31) % 2 ^ 32 - 2 ^ 31

/-- Rust `(e : i32) as u32`: wrapping conversion. -/
def asU32 (z : ℤ) : ℕ :=
  (z % 2 ^ 32).toNat

/-- Models `10i32.pow(e)`: iterated `i32` multiplication. -/
def i32pow10 (e : ℕ) : ℤ :=
  wrap32 (10 ^ e)

/-- Models `fn get_actual_object_count(base: i32, multiplier: i32) -> i32`
(`base * 10i32.pow((multiplier - 1) as u32)`). -/
def get_actual_object_count (base multiplier : ℤ) : ℤ :=
  wrap32 (base * i32pow10 (asU32 (multiplier - 1)))

/-- Models `Color::new(rng.gen_range(0..255), ..., 255)`: three sampled channels,
alpha 255. -/
def genColor (r : Rng) : Color × Rng :=
  let pr := genI 0 255 r
  let pg := genI 0 255 pr.2
  let pb := genI 0 255 pg.2
  (⟨pr.1, pg.1, pb.1, 255⟩, pb.2)

/-- One circle as sampled by `initialize_objects` (x, y, radius, speed,
color). -/
def genCircle (r : Rng) : Circle × Rng :=
  let px := genF 0 800 r
  let py := genF 100 500 px.2
  let pradius := genF 5 25 py.2
  let pspeed := genF 50 250 pradius.2
  let pcolor := genColor pspeed.2
  (⟨px.1, py.1, pradius.1, pspeed.1, pcolor.1⟩, pcolor.2)

/-- One rectangle as sampled by `initialize_objects` (x, y, width, height,
speed, color). -/
def genRect (r : Rng) : Rectangle2D × Rng :=
  let px := genF 0 800 r
  let py := genF 100 500 px.2
  let pwidth := genF 10 50 py.2
  let pheight := genF 10 50 pwidth.2
  let pspeed := genF 30 180 pheight.2
  let pcolor := genColor pspeed.2
  (⟨px.1, py.1, pwidth.1, pheight.1, pspeed.1, pcolor.1⟩, pcolor.2)

/-- One cube as sampled by `initialize_objects` (position, size, rotation,
color). -/
def genCube (r : Rng) : Cube × Rng :=
  let ppx := genF (-10) 10 r
  let ppy := genF (-5) 5 ppx.2
  let ppz := genF (-10) 10 ppy.2
  let psx := genF (1/2) (5/2) ppz.2
  let psy := genF (1/2) (5/2) psx.2
  let psz := genF (1/2) (5/2) psy.2
  let prot := genF 0 360 psz.2
  let pcolor := genColor prot.2
  (⟨⟨ppx.1, ppy.1, ppz.1⟩, ⟨psx.1, psy.1, psz.1⟩, prot.1, pcolor.1⟩, pcolor.2)

/-- Loop `for _ in 0..n { circles.push(...) }`. -/
def genCircles : ℕ → Rng → List Circle × Rng
  | 0, r => ([], r)
  | n + 1, r =>
    let p := genCircle r
    let q := genCircles n p.2
    (p.1 :: q.1, q.2)

/-- Loop `for _ in 0..n { rectangles.push(...) }`. -/
def genRects : ℕ → Rng → List Rectangle2D × Rng
  | 0, r => ([], r)
  | n + 1, r =>
    let p := genRect r
    let q := genRects n p.2
    (p.1 :: q.1, q.2)

/-- Loop `for _ in 0..n { cubes.push(...) }`. -/
def genCubes : ℕ → Rng → List Cube × Rng
  | 0, r => ([], r)
  | n + 1, r =>
    let p := genCube r
    let q := genCubes n p.2
    (p.1 :: q.1, q.2)

/-- Models `fn initialize_objects(...)` (the name is shortened here): clears the
three sequences, then repopulates the ones selected by the render mode and
shape type.  A Rust `for _ in 0..k` loop with `k : i32` runs `k.toNat`
times. -/
def initObjects (mode : RenderMode) (shape : ShapeType)
    (base_count power_multiplier : ℤ) (r : Rng) : ObjectPool × Rng :=
  let actual_count := get_actual_object_count base_count power_multiplier
  match mode with
  | RenderMode.Mode2D =>
    match shape with
    | ShapeType.Circle =>
      let p := genCircles (min actual_count 10000).toNat r
      (⟨p.1, [], []⟩, p.2)
    | ShapeType.Rectangle =>
      let p := genRects (min actual_count 10000).toNat r
      (⟨[], p.1, []⟩, p.2)
    | ShapeType.Mixed =>
      let half_count := actual_count.tdiv 2
      let p := genCircles (min half_count 5000).toNat r
      let q := genRects (min half_count 5000).toNat p.2
      (⟨p.1, q.1, []⟩, q.2)
  | RenderMode.Mode3D =>
    let p := genCubes (min actual_count 5000).toNat r
    (⟨[], [], p.1⟩, p.2)

/-- Per-circle body of the first loop of `fn update_animations` (and of the
circle-update loop in `rust-memory-stress-test/src/main.rs`, which is the
same code with `screen_width = 800`): advance `x` by `speed * dt`, wrapping
to `-radius` past `800 + radius`. -/
def updateCircle (dt : ℚ) (c : Circle) : Circle :=
  let x := c.x + c.speed * dt
  if x > 800 + c.radius then { c with x := -c.radius } else { c with x := x }

/-- Per-rectangle body of the second loop of `fn update_animations`. -/
def updateRect (dt : ℚ) (rc : Rectangle2D) : Rectangle2D :=
  let x := rc.x + rc.speed * dt
  if x > 800 + rc.width then { rc with x := -rc.width } else { rc with x := x }

/-- Per-cube body of the third loop of `fn update_animations`: 45 degrees
per second, one subtraction of 360 past 360. -/
def updateCube (dt : ℚ) (cb : Cube) : Cube :=
  let rot := cb.rotation + 45 * dt
  if rot > 360 then { cb with rotation := rot - 360 } else { cb with rotation := rot }

/-- Models `fn update_animations(circles, rectangles, cubes, delta_time)`: updates
each object of the three sequences in place. -/
def update_animations (circles : List Circle) (rectangles : List Rectangle2D)
    (cubes : List Cube) (delta_time : ℚ) : ObjectPool :=
  ⟨circles.map (updateCircle delta_time),
   rectangles.map (updateRect delta_time),
   cubes.map (updateCube delta_time)⟩

/-- KEY_UP handler: `base_object_count = (base_object_count + 10).min(1000)`. -/
def increase_base_count (b : ℤ) : ℤ := min (b + 10) 1000

/-- KEY_DOWN handler: `base_object_count = (base_object_count - 10).max(10)`. -/
def decrease_base_count (b : ℤ) : ℤ := max (b - 10) 10

/-- KEY_RIGHT handler: `power_multiplier = (power_multiplier + 1).min(5)`. -/
def increase_power_multiplier (m : ℤ) : ℤ := min (m + 1) 5

/-- KEY_LEFT handler: `power_multiplier = (power_multiplier - 1).max(1)`. -/
def decrease_power_multiplier (m : ℤ) : ℤ := max (m - 1) 1

/-! The memory-stress variant (`rust-memory-stress-test/src/main.rs`). -/

/-- One stress allocation: `vec![0; 1000]`, a chunk of 1000 zero bytes. -/
def chunk : List ℕ := List.replicate 1000 0

/-- Source `objects_retained = 1000`: the retention cap. -/
def objects_retained : ℕ := 1000

/-- Source `stress_objects_per_level = [100, 1000, 10000]`. -/
def stress_objects_per_level : List ℕ := [100, 1000, 10000]

/-- The stress-buffer state: the `objects` vector and the `objects_created`
counter of the main loop. -/
structure StressState where
  objects : List (List ℕ)
  objects_created : ℕ
  deriving DecidableEq

/-- Loop `for _ in 0..objects_per_frame { objects.push(vec![0; 1000]); objects_created += 1; }` -/
def pushLoop : ℕ → StressState → StressState
  | 0, s => s
  | n + 1, s => pushLoop n ⟨s.objects ++ [chunk], s.objects_created + 1⟩

/-- Trim `if objects.len() > objects_retained { objects.drain(0..(objects.len() - objects_retained)); }` -/
def trimObjects (objs : List (List ℕ)) : List (List ℕ) :=
  if objs.length > objects_retained then objs.drop (objs.length - objects_retained)
  else objs

/-- One frame of the memory-stress block (source lines 130-142): when stress
is enabled, append `stress_objects_per_level[stress_level - 1]` chunks and
trim the front down to the retention cap; otherwise do nothing. -/
def stress_step (stress_enabled : Bool) (stress_level : ℕ) (s : StressState) :
    StressState :=
  if stress_enabled then
    let objects_per_frame := stress_objects_per_level.getD (stress_level - 1) 0
    let s1 := pushLoop objects_per_frame s
    ⟨trimObjects s1.objects, s1.objects_created⟩
  else s

/-- KEY_R handler (source lines 124-127): `objects.clear(); objects_created = 0;`. -/
def stress_reset (_s : StressState) : StressState := ⟨[], 0⟩

/-- A cube whose rotation 315 lies in [0,360) but lands exactly on 360 after
one dt = 1 step. -/
def cexCube : Cube := ⟨⟨0, 0, 0⟩, ⟨1, 1, 1⟩, 315, ⟨0, 0, 0, 255⟩⟩

/-- The spec's worked cube example: rotation 350. -/
def cube350 : Cube := ⟨⟨0, 0, 0⟩, ⟨1, 1, 1⟩, 350, ⟨0, 0, 0, 255⟩⟩

/-- The spec's worked circle example: x = 799, radius 10, speed 100. -/
def circle799 : Circle := ⟨799, 300, 10, 100, ⟨0, 0, 0, 255⟩⟩

/-- A circle outside the wrap invariant: its x (1000) already exceeds
800 + radius (810), so even a dt = 0 step moves it. -/
def badCircle : Circle := ⟨1000, 300, 10, 100, ⟨0, 0, 0, 255⟩⟩

/-- A circle inside the wrap invariant. -/
def smallCircle : Circle := ⟨100, 300, 10, 50, ⟨0, 0, 0, 255⟩⟩

/-- The ranges claimed for a generated circle: position in the play area,
radius in [5,25], speed in [50,250], channels at most 255, alpha 255. -/
def circleBounds (c : Circle) : Prop :=
  0 ≤ c.x ∧ c.x ≤ 800 ∧ 100 ≤ c.y ∧ c.y ≤ 500 ∧ 5 ≤ c.radius ∧ c.radius ≤ 25 ∧
    50 ≤ c.speed ∧ c.speed ≤ 250 ∧ c.color.r ≤ 255 ∧ c.color.g ≤ 255 ∧
    c.color.b ≤ 255 ∧ c.color.a = 255

instance : DecidablePred circleBounds := by
  unfold circleBounds
  infer_instance

/-- A concrete deterministic random source: every unit sample is 1/2. -/
def halfRng : Rng :=
  ⟨fun _ => 1 / 2, 0, fun _ => by norm_num, fun _ => by norm_num⟩

instance : Inhabited Circle :=
  ⟨⟨0, 0, 0, 0, ⟨0, 0, 0, 0⟩⟩⟩

/-! Helper lemmas. -/

lemma wrap32_eq_self {z : ℤ} (h1 : -2 ^ 31 ≤ z) (h2 : z < 2 ^ 31) :
    wrap32 z = z := by
  unfold wrap32
  rw [Int.emod_eq_of_lt (by linarith) (by linarith)]
  ring

lemma pow10_le {e : ℕ} (h : e ≤ 4) : (10 : ℤ) ^ e ≤ 10 ^ 4 :=
  pow_le_pow_right₀ (by norm_num) h

lemma asU32_sub_one {m : ℤ} (h1 : 1 ≤ m) (h2 : m ≤ 5) :
    asU32 (m - 1) = (m - 1).toNat := by
  unfold asU32
  rw [Int.emod_eq_of_lt (by linarith) (by norm_num; linarith)]

lemma i32pow10_eq {e : ℕ} (h : e ≤ 4) : i32pow10 e = 10 ^ e := by
  unfold i32pow10
  exact wrap32_eq_self (le_trans (by norm_num) (pow_nonneg (by norm_num) e))
    (lt_of_le_of_lt (pow10_le h) (by norm_num))

lemma actual_count_eq {base mult : ℤ} (hb1 : 10 ≤ base) (hb2 : base ≤ 1000)
    (hm1 : 1 ≤ mult) (hm2 : mult ≤ 5) :
    get_actual_object_count base mult = base * 10 ^ (mult - 1).toNat := by
  unfold get_actual_object_count
  rw [asU32_sub_one hm1 hm2, i32pow10_eq (by omega)]
  have hpow1 : (1 : ℤ) ≤ 10 ^ (mult - 1).toNat := one_le_pow₀ (by norm_num)
  have hpow4 : (10 : ℤ) ^ (mult - 1).toNat ≤ 10 ^ 4 := pow10_le (by omega)
  apply wrap32_eq_self
  · nlinarith
  · nlinarith

lemma actual_count_bounds {base mult : ℤ} (hb1 : 10 ≤ base) (hb2 : base ≤ 1000)
    (hm1 : 1 ≤ mult) (hm2 : mult ≤ 5) :
    10 ≤ get_actual_object_count base mult ∧
      get_actual_object_count base mult ≤ 10000000 := by
  rw [actual_count_eq hb1 hb2 hm1 hm2]
  have hpow1 : (1 : ℤ) ≤ 10 ^ (mult - 1).toNat := one_le_pow₀ (by norm_num)
  have hpow4 : (10 : ℤ) ^ (mult - 1).toNat ≤ 10 ^ 4 := pow10_le (by omega)
  constructor
  · nlinarith
  · nlinarith

lemma genCircles_length (n : ℕ) (r : Rng) : (genCircles n r).1.length = n := by
  induction n generalizing r with
  | zero => simp [genCircles]
  | succ k ih => simp [genCircles, ih]

lemma genRects_length (n : ℕ) (r : Rng) : (genRects n r).1.length = n := by
  induction n generalizing r with
  | zero => simp [genRects]
  | succ k ih => simp [genRects, ih]

lemma genCubes_length (n : ℕ) (r : Rng) : (genCubes n r).1.length = n := by
  induction n generalizing r with
  | zero => simp [genCubes]
  | succ k ih => simp [genCubes, ih]

lemma pushLoop_spec (n : ℕ) (s : StressState) :
    pushLoop n s =
      ⟨s.objects ++ List.replicate n chunk, s.objects_created + n⟩ := by
  induction n generalizing s with
  | zero => simp [pushLoop]
  | succ k ih =>
    rw [pushLoop, ih]
    simp [List.replicate_succ]
    omega

lemma genF_le {lo hi : ℚ} (r : Rng) (h : lo < hi) : lo ≤ (genF lo hi r).1 := by
  unfold genF
  dsimp only
  nlinarith [r.lb r.idx, r.ub r.idx]

lemma genF_lt {lo hi : ℚ} (r : Rng) (h : lo < hi) : (genF lo hi r).1 < hi := by
  unfold genF
  dsimp only
  nlinarith [r.lb r.idx, r.ub r.idx]

lemma genI_le {lo hi : ℕ} (r : Rng) : lo ≤ (genI lo hi r).1 := by
  unfold genI
  omega

lemma genI_lt {lo hi : ℕ} (r : Rng) (h : lo < hi) : (genI lo hi r).1 < hi := by
  have hd : (0 : ℚ) < (hi : ℚ) - lo := by
    have : (lo : ℚ) < hi := by exact_mod_cast h
    linarith
  have h1 : ((hi : ℚ) - lo) * r.stream r.idx < (hi : ℚ) - lo :=
    mul_lt_of_lt_one_right hd (r.ub r.idx)
  have h2 : ⌊((hi : ℚ) - lo) * r.stream r.idx⌋ < (hi : ℤ) - lo := by
    rw [Int.floor_lt]
    push_cast
    linarith
  have h3 : 0 ≤ ⌊((hi : ℚ) - lo) * r.stream r.idx⌋ :=
    Int.floor_nonneg.mpr (mul_nonneg (le_of_lt hd) (r.lb r.idx))
  unfold genI
  omega

lemma genColor_spec (r : Rng) :
    (genColor r).1.r ≤ 255 ∧ (genColor r).1.g ≤ 255 ∧ (genColor r).1.b ≤ 255 ∧
      (genColor r).1.a = 255 := by
  refine ⟨?_, ?_, ?_, rfl⟩ <;>
    exact le_of_lt (genI_lt _ (by norm_num))

lemma genCircle_bounds (r : Rng) : circleBounds (genCircle r).1 := by
  unfold circleBounds genCircle
  have hcol := genColor_spec (genF 50 250 (genF 5 25 (genF 100 500 (genF 0 800 r).2).2).2).2
  exact ⟨genF_le _ (by norm_num), le_of_lt (genF_lt _ (by norm_num)),
    genF_le _ (by norm_num), le_of_lt (genF_lt _ (by norm_num)),
    genF_le _ (by norm_num), le_of_lt (genF_lt _ (by norm_num)),
    genF_le _ (by norm_num), le_of_lt (genF_lt _ (by norm_num)),
    hcol.1, hcol.2.1, hcol.2.2.1, hcol.2.2.2⟩

lemma genCircles_mem {n : ℕ} {r : Rng} {c : Circle}
    (hc : c ∈ (genCircles n r).1) : circleBounds c := by
  induction n generalizing r with
  | zero => simp [genCircles] at hc
  | succ k ih =>
    simp only [genCircles, List.mem_cons] at hc
    rcases hc with hc | hc
    · exact hc ▸ genCircle_bounds r
    · exact ih hc

lemma headI_mem_of_ne_nil {α : Type} [Inhabited α] {l : List α} (h : l ≠ []) :
    l.headI ∈ l := by
  cases l with
  | nil => exact absurd rfl h
  | cons a t => exact List.mem_cons_self a t

lemma trimObjects_length (objs : List (List ℕ)) :
    (trimObjects objs).length =
      if objs.length > 1000 then 1000 else objs.length := by
  unfold trimObjects objects_retained
  split <;> simp [List.length_drop]
  omega

lemma trim_append (n : ℕ) (s : StressState) :
    (trimObjects (s.objects ++ List.replicate n chunk)).length ≤ 1000 ∧
      (s.objects.length + n > 1000 →
        trimObjects (s.objects ++ List.replicate n chunk) =
          (s.objects ++ List.replicate n chunk).drop
            (s.objects.length + n - 1000) ∧
        (trimObjects (s.objects ++ List.replicate n chunk)).length = 1000) := by
  have hL : (s.objects ++ List.replicate n chunk).length =
      s.objects.length + n := by simp
  constructor
  · rw [trimObjects_length, hL]
    split <;> omega
  · intro hgt
    constructor
    · unfold trimObjects objects_retained
      rw [hL, if_pos hgt]
    · rw [trimObjects_length, hL, if_pos hgt]

lemma stress_step_true (level : ℕ) (s : StressState) :
    stress_step true level s =
      ⟨trimObjects (s.objects ++ List.replicate
          (stress_objects_per_level.getD (level - 1) 0) chunk),
        s.objects_created + stress_objects_per_level.getD (level - 1) 0⟩ := by
  simp [stress_step, pushLoop_spec]

/-! Claim theorems. -/

/-- Claim C10: for every base count in [10,1000] and power multiplier in
[1,5], `get_actual_object_count` returns exactly `base * 10^(multiplier-1)`
with no i32 overflow; the largest possible result, 1000 * 10^4 = 10,000,000,
fits in a 32-bit signed integer. -/
theorem claim_C10 (base mult : ℤ) (hb1 : 10 ≤ base) (hb2 : base ≤ 1000)
    (hm1 : 1 ≤ mult) (hm2 : mult ≤ 5) :
    get_actual_object_count base mult = base * 10 ^ (mult - 1).toNat ∧
      get_actual_object_count base mult ≤ 10000000 ∧ (10000000 : ℤ) < 2 ^ 31 :=
  ⟨actual_count_eq hb1 hb2 hm1 hm2,
    (actual_count_bounds hb1 hb2 hm1 hm2).2, by norm_num⟩

theorem claim_C10_witness :
    get_actual_object_count 1000 5 = 10000000 ∧
      get_actual_object_count 1000 5 ≤ 10000000 := by
  have h := claim_C10 1000 5 (by norm_num) (by norm_num) (by norm_num)
    (by norm_num)
  refine ⟨?_, h.2.1⟩
  rw [h.1]
  decide

/-- Claim C7: the base-count and power-multiplier adjustments saturate at
their bounds: repeated decrease at 10 stays exactly 10, repeated increase at
1000 stays exactly 1000, likewise the power multiplier at 1 and 5, and no
adjustment leaves an in-range value out of range. -/
theorem claim_C7 :
    (∀ n : ℕ, decrease_base_count^[n] 10 = 10) ∧
      (∀ n : ℕ, increase_base_count^[n] 1000 = 1000) ∧
      (∀ n : ℕ, decrease_power_multiplier^[n] 1 = 1) ∧
      (∀ n : ℕ, increase_power_multiplier^[n] 5 = 5) ∧
      (∀ b : ℤ, 10 ≤ b → b ≤ 1000 →
        10 ≤ increase_base_count b ∧ increase_base_count b ≤ 1000 ∧
          10 ≤ decrease_base_count b ∧ decrease_base_count b ≤ 1000) ∧
      (∀ m : ℤ, 1 ≤ m → m ≤ 5 →
        1 ≤ increase_power_multiplier m ∧ increase_power_multiplier m ≤ 5 ∧
          1 ≤ decrease_power_multiplier m ∧ decrease_power_multiplier m ≤ 5) := by
  refine ⟨fun n => Function.iterate_fixed ?_ n, fun n => Function.iterate_fixed ?_ n,
    fun n => Function.iterate_fixed ?_ n, fun n => Function.iterate_fixed ?_ n,
    fun b h1 h2 => ?_, fun m h1 h2 => ?_⟩ <;>
    simp only [decrease_base_count, increase_base_count,
      decrease_power_multiplier, increase_power_multiplier] <;>
    omega

theorem claim_C7_witness :
    decrease_base_count 10 = 10 ∧ increase_base_count 1000 = 1000 ∧
      decrease_power_multiplier 1 = 1 ∧ increase_power_multiplier 5 = 5 ∧
      10 ≤ increase_base_count 500 ∧ increase_base_count 500 ≤ 1000 ∧
      1 ≤ decrease_power_multiplier 3 ∧ decrease_power_multiplier 3 ≤ 5 := by
  obtain ⟨h1, h2, h3, h4, h5, h6⟩ := claim_C7
  have e1 := h1 1
  have e2 := h2 1
  have e3 := h3 1
  have e4 := h4 1
  rw [Function.iterate_one] at e1 e2 e3 e4
  have e5 := h5 500 (by norm_num) (by norm_num)
  have e6 := h6 3 (by norm_num) (by norm_num)
  exact ⟨e1, e2, e3, e4, e5.1, e5.2.1, e6.2.2.1, e6.2.2.2⟩

/-- Claim C3: for every starting buffer state and every stress level, after
an (enabled) stress-buffer step the buffer holds at most 1000 chunks; when
the append pushes the length past the retention cap of 1000, chunks are
removed from the head until the length is exactly 1000; a disabled step
leaves the buffer untouched. -/
theorem claim_C3 (s : StressState) (level : ℕ) (_h1 : 1 ≤ level)
    (_h2 : level ≤ 3) :
    (stress_step true level s).objects.length ≤ 1000 ∧
      (s.objects.length + stress_objects_per_level.getD (level - 1) 0 > 1000 →
        (stress_step true level s).objects =
          (s.objects ++ List.replicate
              (stress_objects_per_level.getD (level - 1) 0) chunk).drop
            (s.objects.length +
              stress_objects_per_level.getD (level - 1) 0 - 1000) ∧
          (stress_step true level s).objects.length = 1000) ∧
      stress_step false level s = s := by
  rw [stress_step_true]
  exact ⟨(trim_append _ s).1, fun hgt => (trim_append _ s).2 hgt, rfl⟩

theorem claim_C3_witness :
    (stress_step true 2 ⟨List.replicate 500 chunk, 0⟩).objects.length ≤ 1000 ∧
      (stress_step true 2 ⟨List.replicate 500 chunk, 0⟩).objects.length = 1000 := by
  have h := claim_C3 ⟨List.replicate 500 chunk, 0⟩ 2 (by norm_num) (by norm_num)
  refine ⟨h.1, (h.2.1 ?_).2⟩
  simp [stress_objects_per_level]

/-- Claim C4: from an empty buffer with stress enabled at level 2 (1000
chunks per step), after 2 steps the buffer holds exactly min(2000,1000) =
1000 chunks while the objects-created counter reads 2000 (it counts every
appended chunk and is untouched by trimming); a reset yields buffer length 0
and counter 0. -/
theorem claim_C4 :
    (stress_step true 2 (stress_step true 2 ⟨[], 0⟩)).objects.length =
        min 2000 1000 ∧
      (stress_step true 2 (stress_step true 2 ⟨[], 0⟩)).objects.length = 1000 ∧
      (stress_step true 2 (stress_step true 2 ⟨[], 0⟩)).objects_created = 2000 ∧
      (stress_reset (stress_step true 2 (stress_step true 2 ⟨[], 0⟩))).objects.length
          = 0 ∧
      (stress_reset (stress_step true 2 (stress_step true 2 ⟨[], 0⟩))).objects_created
          = 0 := by
  have h1 : stress_step true 2 (⟨[], 0⟩ : StressState) =
      ⟨List.replicate 1000 chunk, 1000⟩ := by
    rw [stress_step_true]
    simp [stress_objects_per_level, trimObjects, objects_retained]
  rw [h1, stress_step_true]
  have hlen : (trimObjects (List.replicate 1000 chunk ++ List.replicate 1000
      chunk)).length = 1000 := by
    rw [trimObjects_length]
    simp
  refine ⟨by simpa using hlen, by simpa using hlen, by simp [stress_objects_per_level],
    rfl, rfl⟩

/-- Claim C1: for every base_count in [10,1000] and multiplier in [1,5], the
actual object count is base_count * 10^(multiplier-1); generation produces
exactly min(actual_count, 10000) shapes in a 2D single-shape mode and
exactly min(actual_count, 5000) cubes in 3D mode, with the sequences unused
by the current mode left empty. -/
theorem claim_C1 (base mult : ℤ) (r : Rng) (hb1 : 10 ≤ base)
    (hb2 : base ≤ 1000) (hm1 : 1 ≤ mult) (hm2 : mult ≤ 5) :
    get_actual_object_count base mult = base * 10 ^ (mult - 1).toNat ∧
      ((initObjects RenderMode.Mode2D ShapeType.Circle base mult r).1.circles.length =
          (min (get_actual_object_count base mult) 10000).toNat ∧
        (initObjects RenderMode.Mode2D ShapeType.Circle base mult r).1.rectangles = [] ∧
        (initObjects RenderMode.Mode2D ShapeType.Circle base mult r).1.cubes = []) ∧
      ((initObjects RenderMode.Mode2D ShapeType.Rectangle base mult r).1.rectangles.length =
          (min (get_actual_object_count base mult) 10000).toNat ∧
        (initObjects RenderMode.Mode2D ShapeType.Rectangle base mult r).1.circles = [] ∧
        (initObjects RenderMode.Mode2D ShapeType.Rectangle base mult r).1.cubes = []) ∧
      (∀ shape : ShapeType,
        (initObjects RenderMode.Mode3D shape base mult r).1.cubes.length =
            (min (get_actual_object_count base mult) 5000).toNat ∧
          (initObjects RenderMode.Mode3D shape base mult r).1.circles = [] ∧
          (initObjects RenderMode.Mode3D shape base mult r).1.rectangles = []) := by
  refine ⟨actual_count_eq hb1 hb2 hm1 hm2, ⟨?_, rfl, rfl⟩, ⟨?_, rfl, rfl⟩,
    fun shape => ⟨?_, rfl, rfl⟩⟩
  · exact genCircles_length _ _
  · exact genRects_length _ _
  · exact genCubes_length _ _

theorem claim_C1_witness :
    (initObjects RenderMode.Mode2D ShapeType.Circle 100 1 halfRng).1.circles.length = 100 ∧
      (initObjects RenderMode.Mode2D ShapeType.Rectangle 100 1 halfRng).1.rectangles.length = 100 ∧
      (initObjects RenderMode.Mode3D ShapeType.Circle 100 1 halfRng).1.cubes.length = 100 ∧
      (initObjects RenderMode.Mode2D ShapeType.Circle 100 1 halfRng).1.cubes = [] := by
  have h := claim_C1 100 1 halfRng (by norm_num) (by norm_num) (by norm_num)
    (by norm_num)
  have e : (min (get_actual_object_count 100 1) 10000).toNat = 100 := by decide
  have e5 : (min (get_actual_object_count 100 1) 5000).toNat = 100 := by decide
  exact ⟨h.2.1.1.trans e, h.2.2.1.1.trans e,
    (h.2.2.2 ShapeType.Circle).1.trans e5, h.2.1.2.2⟩

/-- Claim C2: in 2D Mixed mode, half_count is actual_count / 2 with integer
division, and exactly min(half_count, 5000) circles and min(half_count,
5000) rectangles are generated; with base_count = 100 and multiplier = 1,
exactly 50 circles and 50 rectangles and no cubes. -/
theorem claim_C2 :
    (∀ (base mult : ℤ) (r : Rng), 10 ≤ base → base ≤ 1000 → 1 ≤ mult →
      mult ≤ 5 →
      (initObjects RenderMode.Mode2D ShapeType.Mixed base mult r).1.circles.length =
          (min ((get_actual_object_count base mult).tdiv 2) 5000).toNat ∧
        (initObjects RenderMode.Mode2D ShapeType.Mixed base mult r).1.rectangles.length =
          (min ((get_actual_object_count base mult).tdiv 2) 5000).toNat ∧
        (initObjects RenderMode.Mode2D ShapeType.Mixed base mult r).1.cubes = []) ∧
      (∀ r : Rng,
        (initObjects RenderMode.Mode2D ShapeType.Mixed 100 1 r).1.circles.length = 50 ∧
          (initObjects RenderMode.Mode2D ShapeType.Mixed 100 1 r).1.rectangles.length = 50 ∧
          (initObjects RenderMode.Mode2D ShapeType.Mixed 100 1 r).1.cubes = []) := by
  have e : (min ((get_actual_object_count 100 1).tdiv 2) 5000).toNat = 50 := by
    decide
  refine ⟨fun base mult r _ _ _ _ => ⟨genCircles_length _ _, genRects_length _ _, rfl⟩,
    fun r => ⟨(genCircles_length _ _).trans e, (genRects_length _ _).trans e, rfl⟩⟩

theorem claim_C2_witness :
    (initObjects RenderMode.Mode2D ShapeType.Mixed 100 1 halfRng).1.circles.length = 50 ∧
      (initObjects RenderMode.Mode2D ShapeType.Mixed 100 1 halfRng).1.cubes = [] := by
  have h := claim_C2.1 100 1 halfRng (by norm_num) (by norm_num) (by norm_num)
    (by norm_num)
  exact ⟨h.1.trans (by decide), h.2.2⟩

/-- Claim C5 counterexample: the cube with rotation 315 (inside [0,360))
stepped with dt = 1 reaches exactly 360, which is not in [0,360): the code
only subtracts when the rotation strictly exceeds 360. -/
theorem claim_C5_cex :
    0 ≤ cexCube.rotation ∧ cexCube.rotation < 360 ∧ (0 : ℚ) ≤ 1 ∧
      (updateCube 1 cexCube).rotation = 360 ∧
      ¬ (updateCube 1 cexCube).rotation < 360 := by
  refine ⟨by norm_num [cexCube], by norm_num [cexCube], by norm_num, ?_, ?_⟩ <;>
    norm_num [updateCube, cexCube]

/-- Claim C5 (amended): for dt in [0,8] (so that 45 * dt is at most 360) and
a starting rotation in [0,360], the step adds 45 * dt and subtracts 360 when
the result strictly exceeds 360, preserving the overshoot; the rotation
stays in the closed interval [0,360]. -/
theorem claim_C5 (cb : Cube) (dt : ℚ) (hdt0 : 0 ≤ dt) (hdt8 : dt ≤ 8)
    (hr0 : 0 ≤ cb.rotation) (hr1 : cb.rotation ≤ 360) :
    0 ≤ (updateCube dt cb).rotation ∧ (updateCube dt cb).rotation ≤ 360 ∧
      (cb.rotation + 45 * dt > 360 →
        (updateCube dt cb).rotation = cb.rotation + 45 * dt - 360) ∧
      (¬ cb.rotation + 45 * dt > 360 →
        (updateCube dt cb).rotation = cb.rotation + 45 * dt) := by
  unfold updateCube
  dsimp only
  split
  case isTrue h =>
    exact ⟨by dsimp only; linarith, by dsimp only; linarith, fun _ => rfl,
      fun hc => absurd h hc⟩
  case isFalse h =>
    have hle : cb.rotation + 45 * dt ≤ 360 := not_lt.mp h
    exact ⟨by dsimp only; linarith, by dsimp only; linarith,
      fun hc => absurd hc h, fun _ => rfl⟩

theorem claim_C5_witness :
    (updateCube 1 cube350).rotation = 35 ∧
      0 ≤ (updateCube 1 cube350).rotation ∧
      (updateCube 1 cube350).rotation ≤ 360 := by
  have h := claim_C5 cube350 1 (by norm_num) (by norm_num)
    (by norm_num [cube350]) (by norm_num [cube350])
  refine ⟨?_, h.1, h.2.1⟩
  have e := h.2.2.1 (by norm_num [cube350])
  rw [e]
  norm_num [cube350]

/-- Claim C6: each circle's and rectangle's x advances by speed * dt, and
when the new x exceeds 800 plus the shape's horizontal extent (radius resp.
width) it is reset to minus that extent; the worked example x = 799, radius
10, speed 100, dt 1 ends at -10, not 899. -/
theorem claim_C6 :
    (∀ (dt : ℚ) (cs : List Circle) (rs : List Rectangle2D) (qs : List Cube)
        (i : ℕ),
      (update_animations cs rs qs dt).circles[i]? =
        (cs[i]?).map fun c =>
          if c.x + c.speed * dt > 800 + c.radius then { c with x := -c.radius }
          else { c with x := c.x + c.speed * dt }) ∧
      (∀ (dt : ℚ) (cs : List Circle) (rs : List Rectangle2D) (qs : List Cube)
          (i : ℕ),
        (update_animations cs rs qs dt).rectangles[i]? =
          (rs[i]?).map fun rc =>
            if rc.x + rc.speed * dt > 800 + rc.width then { rc with x := -rc.width }
            else { rc with x := rc.x + rc.speed * dt }) ∧
      (update_animations [circle799] [] [] 1).circles =
        [{ circle799 with x := -10 }] ∧
      (updateCircle 1 circle799).x = -10 ∧ (updateCircle 1 circle799).x ≠ 899 := by
  refine ⟨?_, ?_, ?_, ?_, ?_⟩
  · intro dt cs rs qs i
    rw [show (update_animations cs rs qs dt).circles = cs.map (updateCircle dt)
      from rfl, List.getElem?_map]
    cases cs[i]? <;> simp [updateCircle]
  · intro dt cs rs qs i
    rw [show (update_animations cs rs qs dt).rectangles = rs.map (updateRect dt)
      from rfl, List.getElem?_map]
    cases rs[i]? <;> simp [updateRect]
  · norm_num [update_animations, updateCircle, circle799]
  · norm_num [updateCircle, circle799]
  · norm_num [updateCircle, circle799]

/-- Claim C8: every circle generated in 2D Circle mode has its position in
the play area (x in [0,800], y in [100,500]), radius in [5,25], speed in
[50,250], every RGB channel at most 255, and alpha exactly 255, for every
in-range base count and multiplier and every state of the random source. -/
theorem claim_C8 (base mult : ℤ) (r : Rng) (hb1 : 10 ≤ base)
    (hb2 : base ≤ 1000) (hm1 : 1 ≤ mult) (hm2 : mult ≤ 5) :
    ∀ c ∈ (initObjects RenderMode.Mode2D ShapeType.Circle base mult r).1.circles,
      0 ≤ c.x ∧ c.x ≤ 800 ∧ 100 ≤ c.y ∧ c.y ≤ 500 ∧ 5 ≤ c.radius ∧
        c.radius ≤ 25 ∧ 50 ≤ c.speed ∧ c.speed ≤ 250 ∧ c.color.r ≤ 255 ∧
        c.color.g ≤ 255 ∧ c.color.b ≤ 255 ∧ c.color.a = 255 := by
  intro c hc
  have hc' : c ∈ (genCircles
      (min (get_actual_object_count base mult) 10000).toNat r).1 := hc
  exact genCircles_mem hc'

theorem claim_C8_witness :
    circleBounds
      ((initObjects RenderMode.Mode2D ShapeType.Circle 10 1 halfRng).1.circles.headI) := by
  have hlen : (initObjects RenderMode.Mode2D ShapeType.Circle 10 1 halfRng).1.circles.length
      = 10 :=
    (genCircles_length (min (get_actual_object_count 10 1) 10000).toNat halfRng).trans
      (by decide)
  have hne : (initObjects RenderMode.Mode2D ShapeType.Circle 10 1 halfRng).1.circles ≠ [] :=
    List.length_pos.mp (by rw [hlen]; norm_num)
  exact claim_C8 10 1 halfRng (by norm_num) (by norm_num) (by norm_num)
    (by norm_num) _ (headI_mem_of_ne_nil hne)

lemma map_id_of_mem {α : Type} {f : α → α} :
    ∀ {l : List α}, (∀ x ∈ l, f x = x) → l.map f = l := by
  intro l h
  induction l with
  | nil => rfl
  | cons a t ih =>
    simp only [List.map_cons, h a (List.mem_cons_self a t),
      ih fun x hx => h x (List.mem_cons_of_mem a hx)]

lemma updateCircle_zero {c : Circle} (h : c.x ≤ 800 + c.radius) :
    updateCircle 0 c = c := by
  unfold updateCircle
  dsimp only
  rw [mul_zero, add_zero, if_neg (not_lt.mpr h)]

lemma updateRect_zero {rc : Rectangle2D} (h : rc.x ≤ 800 + rc.width) :
    updateRect 0 rc = rc := by
  unfold updateRect
  dsimp only
  rw [mul_zero, add_zero, if_neg (not_lt.mpr h)]

lemma updateCube_zero {cb : Cube} (h : cb.rotation ≤ 360) :
    updateCube 0 cb = cb := by
  unfold updateCube
  dsimp only
  rw [mul_zero, add_zero, if_neg (not_lt.mpr h)]

/-- Claim C9 counterexample: the dt = 0 animation step is not the identity
on every state: the circle with x = 1000 and radius 10 is moved to
x = -10 by a dt = 0 step, because its x already exceeds 800 + radius. -/
theorem claim_C9_cex :
    update_animations [badCircle] [] [] 0 ≠ ⟨[badCircle], [], []⟩ ∧
      (updateCircle 0 badCircle).x = -10 ∧ badCircle.x = 1000 := by
  have hx : (updateCircle 0 badCircle).x = -10 := by
    norm_num [updateCircle, badCircle]
  refine ⟨?_, hx, rfl⟩
  intro h
  have hcirc : updateCircle 0 badCircle = badCircle := by
    have h2 := congrArg ObjectPool.circles h
    simpa [update_animations] using h2
  rw [hcirc] at hx
  norm_num [badCircle] at hx

/-- Claim C9 (amended): the dt = 0 animation step leaves every object
unchanged on every state satisfying the wrap invariants the generator and
the step itself maintain: every circle has x at most 800 + radius, every
rectangle x at most 800 + width, every cube rotation at most 360. -/
theorem claim_C9 (cs : List Circle) (rs : List Rectangle2D) (qs : List Cube)
    (hc : ∀ c ∈ cs, c.x ≤ 800 + c.radius)
    (hr : ∀ rc ∈ rs, rc.x ≤ 800 + rc.width)
    (hq : ∀ cb ∈ qs, cb.rotation ≤ 360) :
    update_animations cs rs qs 0 = ⟨cs, rs, qs⟩ := by
  unfold update_animations
  rw [map_id_of_mem fun c hcm => updateCircle_zero (hc c hcm),
    map_id_of_mem fun rc hrm => updateRect_zero (hr rc hrm),
    map_id_of_mem fun cb hqm => updateCube_zero (hq cb hqm)]

theorem claim_C9_witness :
    update_animations [smallCircle] [] [] 0 = ⟨[smallCircle], [], []⟩ :=
  claim_C9 [smallCircle] [] []
    (by
      intro c hcm
      rw [List.mem_singleton] at hcm
      subst hcm
      norm_num [smallCircle])
    (by intro rc hrm; simp at hrm)
    (by intro cb hqm; simp at hqm)

end Demo
